import Mathlib

/-!
Shallow embedding of the command-dispatch / session-state core of the
Data-Science-Agent repository (src/app.py) and of its remote-document
binding layer (src/mcp_tools.py).

Conventions of the embedding:
* A pandas DataFrame is modelled as a `Dataset`: ordered named columns and
  ordered rows (all cells modelled as strings, as produced by the sheets API).
* Python `Optional[X]` is `Option X`; Python truthiness of optional strings
  (`if folder_id:`) is `pyTruthyStr` (false for `None` and for `""`).
* Python exceptions are modelled with `Except String`: a call that may raise
  returns `Except String α`, and a `try/except` block is a `match` on that
  value.  External black-box calls (pandas statistics, json serialisation,
  the Google client methods) are oracle functions gathered in an `Env`
  (for app.py) or passed as explicit function arguments (for mcp_tools.py),
  universally quantified in the theorems.
* Python `str.split()` (split on whitespace runs, dropping empties) is
  `pySplit`; Python list append to the chat history is functional append.
-/

/-- Tabular value: the model of a pandas DataFrame as used by the app
(named ordered columns plus ordered data rows). -/
structure Dataset where
  columns : List String
  rows : List (List String)
deriving Repr, DecidableEq

/-- Remote file descriptor as returned by the Drive listing call
(the fields requested by `fields='nextPageToken, files(id, name, mimeType)'`). -/
structure FileDesc where
  id : String
  name : String
  mimeType : String
deriving Repr, DecidableEq

/-- Truthiness of a Python `Optional[str]`: `None` and the empty string are
falsy, every other string is truthy. -/
def pyTruthyStr : Option String → Bool
  | none => false
  | some s => s ≠ ""

/-- Python `message.startswith('/')`: the first character is the marker.
Defined structurally over the character list so it evaluates by reduction. -/
def startsWithSlash (s : String) : Bool :=
  match s.data with
  | [] => false
  | c :: _ => c == '/'

/-- Python `message[1:]`: the string without its first character. -/
def strTail (s : String) : String :=
  String.mk (s.data.drop 1)

/-- Python `str.lower()` mapped over the characters. -/
def pyLower (s : String) : String :=
  String.mk (s.data.map Char.toLower)

/-- Worker for `pySplit`: split a character list on whitespace runs,
accumulating the current (reversed) token. -/
def pySplitAux : List Char → List Char → List String
  | [], cur => if cur.isEmpty then [] else [String.mk cur.reverse]
  | c :: cs, cur =>
    if c.isWhitespace then
      if cur.isEmpty then pySplitAux cs []
      else String.mk cur.reverse :: pySplitAux cs []
    else pySplitAux cs (c :: cur)

/-- Python `str.split()` with no argument: split on runs of whitespace and
drop empty pieces. -/
def pySplit (s : String) : List String :=
  pySplitAux s.data []

/-- Worker for `splitLines`: split a character list at every newline,
keeping empty pieces (the semantics of splitting on a fixed separator). -/
def splitLinesAux : List Char → List Char → List String
  | [], cur => [String.mk cur.reverse]
  | c :: cs, cur =>
    if c == '\n' then String.mk cur.reverse :: splitLinesAux cs []
    else splitLinesAux cs (c :: cur)

/-- The lines of a string: split at every newline character, keeping empty
pieces. -/
def splitLines (s : String) : List String :=
  splitLinesAux s.data []

/-- The fixed command table `COMMANDS` of src/app.py, in insertion order. -/
def COMMANDS : List (String × String) :=
  [("describe", "Get statistical description of the data"),
   ("missing", "Show missing values in the data"),
   ("info", "Get detailed information about the data"),
   ("create_sheet", "Create a new Google Spreadsheet"),
   ("upload", "Upload current data to Google Drive"),
   ("write", "Write data to a Google Spreadsheet"),
   ("read", "Read data from a Google Spreadsheet"),
   ("list", "List files in Google Drive"),
   ("help", "Show available commands")]

/-- Embedding of `get_help_message` of src/app.py: the header followed by one
line per command table entry. -/
def get_help_message : String :=
  "Available commands:\n\n" ++
    String.join (COMMANDS.map (fun p => "/" ++ p.1 ++ " - " ++ p.2 ++ "\n"))

/-- Oracle environment for the external calls made inside
`process_command` of src/app.py.  `σ` is the opaque type of the sheets
service handle, `δ` of the drive service handle.  Each field models one
black-box call site; a raised Python exception is an `Except.error`. -/
structure Env (σ δ : Type) where
  /-- Models `json.dumps(mcp.describe(df), indent=2)`. -/
  describeJson : Option Dataset → Except String String
  /-- Models `json.dumps(mcp.missing_values(df), indent=2)`. -/
  missingJson : Option Dataset → Except String String
  /-- Models `mcp.get_info(df)`. -/
  getInfo : Option Dataset → Except String String
  /-- Models `mcp.create_spreadsheet(sheets_service, name)`. -/
  create_spreadsheet : Option σ → String → Except String (Option String)
  /-- Models `df.to_csv(temp_path, index=False)`. -/
  to_csv : Dataset → String → Except String Unit
  /-- Models `mcp.upload_to_drive(drive_service, temp_path, mime_type)`. -/
  upload_to_drive : Option δ → String → String → Except String (Option String)
  /-- Models `mcp.write_to_sheet(sheets_service, sheet_id, data)`. -/
  write_to_sheet : Option σ → String → List (List String) → Except String Bool
  /-- Models `mcp.list_files(drive_service, folder_id, file_type)`. -/
  list_files : Option δ → Option String → Option String → Except String (List FileDesc)
  /-- Models `mcp.read_sheet(sheets_service, sheet_id)`. -/
  read_sheet : Option σ → String → Except String (Option Dataset)

/-- The body of the `try:` block of `process_command` in src/app.py: the
if/elif chain over the command name, with every external call routed through
the environment.  An uncaught Python exception inside the block is an
`Except.error`. -/
def processCommandBody {σ δ : Type} (env : Env σ δ) (command : String)
    (args : List String) (df : Option Dataset)
    (sheets_service : Option σ) (drive_service : Option δ) :
    Except String (String × Option Dataset) :=
  if command = "describe" then
    (env.describeJson df).map
      (fun result => ("Statistical Description:\n" ++ result, df))
  else if command = "missing" then
    (env.missingJson df).map
      (fun result => ("Missing Values:\n" ++ result, df))
  else if command = "info" then
    (env.getInfo df).map
      (fun result => ("Dataset Info:\n" ++ result, df))
  else if command = "create_sheet" then
    if args.length < 1 then
      Except.ok ("Please provide a name for the spreadsheet: /create_sheet <name>", df)
    else
      (env.create_spreadsheet sheets_service (args.headD "")).map
        (fun sheet_id =>
          if pyTruthyStr sheet_id then
            ("Created new spreadsheet with ID: " ++ sheet_id.getD "", df)
          else
            ("Failed to create spreadsheet", df))
  else if command = "upload" then
    match df with
    | none => Except.ok ("No data to upload. Please load a CSV file first.", none)
    | some d =>
      if args.length < 1 then
        Except.ok ("Please provide a filename: /upload <filename>", df)
      else do
        let temp_path := "temp_" ++ args.headD "" ++ ".csv"
        let _ ← env.to_csv d temp_path
        let file_id ← env.upload_to_drive drive_service temp_path "text/csv"
        if pyTruthyStr file_id then
          pure ("File uploaded successfully with ID: " ++ file_id.getD "", df)
        else
          pure ("Failed to upload file", df)
  else if command = "write" then
    match df with
    | none => Except.ok ("No data to write. Please load a CSV file first.", none)
    | some d =>
      if args.length < 1 then
        Except.ok ("Please provide spreadsheet ID: /write <spreadsheet_id>", df)
      else
        (env.write_to_sheet sheets_service (args.headD "") (d.columns :: d.rows)).map
          (fun success =>
            if success then ("Data written to sheet successfully", df)
            else ("Failed to write data to sheet", df))
  else if command = "read" then
    if args.length < 1 then
      Except.ok ("Please provide spreadsheet ID: /read <spreadsheet_id>", df)
    else
      (env.read_sheet sheets_service (args.headD "")).map
        (fun new_df =>
          match new_df with
          | some nd => ("Data loaded from sheet successfully", some nd)
          | none => ("Failed to read data from sheet", df))
  else if command = "list" then
    (env.list_files drive_service none (some "application/vnd.google-apps.spreadsheet")).map
      (fun files =>
        if files.isEmpty then ("No spreadsheets found or error occurred", df)
        else
          ("Available Spreadsheets:\n" ++
            String.intercalate "\n"
              (files.map (fun f => "- " ++ f.name ++ " (ID: " ++ f.id ++ ")")), df))
  else
    Except.ok ("Unknown command. Type /help to see available commands.", df)

/-- The dispatcher reaches the `try:` block of `process_command`: the
command is not `help` and neither precondition guard fires. -/
def reachesHandler {σ δ : Type} (command : String) (df : Option Dataset)
    (sheets_service : Option σ) (drive_service : Option δ) : Prop :=
  command ≠ "help" ∧
  (["describe", "missing", "info"].contains command && df.isNone) ≠ true ∧
  (["create_sheet", "upload", "write", "read", "list"].contains command &&
    (sheets_service.isNone || drive_service.isNone)) ≠ true

/-- Embedding of `process_command` of src/app.py: the `help` shortcut, the
two precondition guards, then the `try:` block with its catch-all
`except Exception` converting any exception into an error message while
returning the dataframe it was given. -/
def processCommand {σ δ : Type} (env : Env σ δ) (command : String)
    (args : List String) (df : Option Dataset)
    (sheets_service : Option σ) (drive_service : Option δ) :
    String × Option Dataset :=
  if command = "help" then
    (get_help_message, df)
  else if ["describe", "missing", "info"].contains command && df.isNone then
    ("No data loaded. Please upload a CSV file first.", none)
  else if ["create_sheet", "upload", "write", "read", "list"].contains command &&
      (sheets_service.isNone || drive_service.isNone) then
    ("Not authenticated with Google. Please authenticate first.", df)
  else
    match processCommandBody env command args df sheets_service drive_service with
    | Except.ok r => r
    | Except.error e => ("Error processing command: " ++ e, df)

/-- Embedding of `process_chat` of src/app.py.  For a line starting with the
marker, `message[1:].split()` is computed and `parts[0]` is taken: on a line
whose remainder splits to nothing this is a Python `IndexError`, modelled as
`Except.error`; no handler catches it, so it escapes to the caller. -/
def processChat {σ δ : Type} (env : Env σ δ) (message : String)
    (history : List (String × String)) (df : Option Dataset)
    (sheets_service : Option σ) (drive_service : Option δ) :
    Except String (String × List (String × String) × Option Dataset) :=
  if startsWithSlash message then
    match pySplit (strTail message) with
    | [] => Except.error "IndexError: list index out of range"
    | first :: rest =>
      let command := pyLower first
      let rn := processCommand env command rest df sheets_service drive_service
      Except.ok (rn.1, history ++ [(message, rn.1)], rn.2)
  else
    let response := "Type /help to see available commands"
    Except.ok (response, history ++ [(message, response)], df)

/-!
Embedding of the remote-document binding layer, src/mcp_tools.py.
Each binding is parameterised by oracle functions standing for the Google
client calls it makes; an oracle returning `Except.error` models the client
raising an exception at that call site.
-/

/-- Embedding of `create_spreadsheet` of src/mcp_tools.py.  `execCreate`
models `sheets_service.spreadsheets().create(body=...).execute()` followed by
`response.get('spreadsheetId')` (which may itself be absent, hence
`Option String`); any exception yields the `None` sentinel. -/
def create_spreadsheet (execCreate : String → Except String (Option String))
    (title : String) : Option String :=
  match execCreate title with
  | Except.ok sid => sid
  | Except.error _ => none

/-- Metadata block built by `upload_to_drive` before the Drive call. -/
structure FileMetadata where
  name : String
  parents : Option (List String)
deriving Repr, DecidableEq

/-- Embedding of `upload_to_drive` of src/mcp_tools.py.  `openFile` models
`open(file_path, 'rb')`, `execCreate` models
`drive_service.files().create(...).execute()` followed by `file.get('id')`;
both sit inside the `try:`, so any exception yields the `None` sentinel. -/
def upload_to_drive (openFile : String → Except String Unit)
    (execCreate : FileMetadata → String → String → Except String (Option String))
    (file_path : String) (mime_type : String) (folder_id : Option String) :
    Option String :=
  let file_metadata : FileMetadata :=
    ⟨(file_path.splitOn "/").getLastD "",
     if pyTruthyStr folder_id then some [folder_id.getD ""] else none⟩
  match openFile file_path with
  | Except.error _ => none
  | Except.ok _ =>
    match execCreate file_metadata file_path mime_type with
    | Except.error _ => none
    | Except.ok fid => fid

/-- Default write range of `write_to_sheet` in src/mcp_tools.py. -/
def writeDefaultRange : String := "Sheet1!A1"

/-- Default read range of `read_sheet` in src/mcp_tools.py. -/
def readDefaultRange : String := "Sheet1"

/-- Embedding of `write_to_sheet` of src/mcp_tools.py.  `execUpdate` models
`sheets_service.spreadsheets().values().update(spreadsheetId=..., range=...,
valueInputOption='RAW', body={'values': data}).execute()`; success returns
`True`, any exception yields the `False` sentinel. -/
def write_to_sheet (execUpdate : String → String → List (List String) → Except String Unit)
    (spreadsheet_id : String) (data : List (List String)) (range_name : String) :
    Bool :=
  match execUpdate spreadsheet_id range_name data with
  | Except.ok _ => true
  | Except.error _ => false

/-- Embedding of `read_sheet` of src/mcp_tools.py.  `execGet` models
`sheets_service.spreadsheets().values().get(spreadsheetId=..., range=...)
.execute()` followed by `result.get('values', [])`.  An empty value list or
any exception yields the `None` sentinel; otherwise the first row becomes the
column headers and the rest the data rows. -/
def read_sheet (execGet : String → String → Except String (List (List String)))
    (spreadsheet_id : String) (range_name : String) : Option Dataset :=
  match execGet spreadsheet_id range_name with
  | Except.error _ => none
  | Except.ok values =>
    match values with
    | [] => none
    | headers :: data => some ⟨headers, data⟩

/-- One response of the paginated Drive listing call: the `files` entries and
the optional `nextPageToken`. -/
structure Page where
  files : List FileDesc
  nextPageToken : Option String
deriving Repr, DecidableEq

/-- Query string built by `list_files` of src/mcp_tools.py: the truthy
filters joined with " and ", empty when no filter is given. -/
def buildQuery (folder_id : Option String) (file_type : Option String) : String :=
  let query : List String :=
    (if pyTruthyStr folder_id then ["\x27" ++ folder_id.getD "" ++ "\x27 in parents"] else []) ++
    (if pyTruthyStr file_type then ["mimeType=\x27" ++ file_type.getD "" ++ "\x27"] else [])
  String.intercalate " and " query

/-- The `while True:` pagination loop of `list_files`: consume the service
responses in order, extending the accumulator with each page and stopping
when a page carries no continuation token.  A response modelled as
`Except.error` is a raised exception; an exhausted response list models the
service failing on the next request and is likewise an error. -/
def list_files_go : List (Except String Page) → List FileDesc → Except String (List FileDesc)
  | [], _ => Except.error "service produced no further response"
  | r :: rest, acc =>
    match r with
    | Except.error e => Except.error e
    | Except.ok page =>
      match page.nextPageToken with
      | none => Except.ok (acc ++ page.files)
      | some _ => list_files_go rest (acc ++ page.files)

/-- Embedding of `list_files` of src/mcp_tools.py.  `serve` gives, for the
query string issued, the sequence of responses the service returns to the
successive paginated requests.  The surrounding `try/except` turns any
exception into the empty-list sentinel. -/
def list_files (serve : String → List (Except String Page))
    (folder_id : Option String) (file_type : Option String) : List FileDesc :=
  let query_string := buildQuery folder_id file_type
  match list_files_go (serve query_string) [] with
  | Except.ok results => results
  | Except.error _ => []

/-!
Concrete remote-service model for the write/read round trip: a store from
spreadsheet identifier to the last rectangular value block written to it.
A successful write stores the given values under the identifier; a read of
an identifier returns whatever is stored there (the empty list when nothing
is, matching `result.get('values', [])`).
-/

/-- Store of the round-trip service model: values last written, by
spreadsheet identifier. -/
def SheetStore : Type := String → Option (List (List String))

/-- Round-trip model: a successful write stores the given values under the
identifier. -/
def storeWrite (store : SheetStore) (sid : String) (data : List (List String)) :
    SheetStore :=
  fun s => if s = sid then some data else store s

/-- Round-trip model: the read oracle returns the values stored under the
identifier, the empty list when none are stored. -/
def storeReadOracle (store : SheetStore) :
    String → String → Except String (List (List String)) :=
  fun sid _range => Except.ok ((store sid).getD [])

/-- Round-trip model: the write oracle always succeeds. -/
def storeWriteOracle : String → String → List (List String) → Except String Unit :=
  fun _sid _range _data => Except.ok ()

/-- Trivial oracle environment (every external call succeeds with a neutral
value), used to evaluate the dispatcher at concrete inputs. -/
def envTrivial : Env Unit Unit :=
  ⟨fun _ => Except.ok "", fun _ => Except.ok "", fun _ => Except.ok "",
   fun _ _ => Except.ok none, fun _ _ => Except.ok (), fun _ _ _ => Except.ok none,
   fun _ _ _ => Except.ok false, fun _ _ _ => Except.ok [], fun _ _ => Except.ok none⟩

/-- Oracle environment whose statistics call raises, used to exercise the
catch-all of `process_command` at a concrete input. -/
def envBoom : Env Unit Unit :=
  ⟨fun _ => Except.error "boom", fun _ => Except.ok "", fun _ => Except.ok "",
   fun _ _ => Except.ok none, fun _ _ => Except.ok (), fun _ _ _ => Except.ok none,
   fun _ _ _ => Except.ok false, fun _ _ _ => Except.ok [], fun _ _ => Except.ok none⟩

/-- Small concrete dataset used in witnesses. -/
def dsEx : Dataset := ⟨["a", "b"], [["1", "2"]]⟩

/-- Oracle environment whose sheet-read call returns `dsEx`, used to
exercise the read command at a concrete input. -/
def envRead : Env Unit Unit :=
  ⟨fun _ => Except.ok "", fun _ => Except.ok "", fun _ => Except.ok "",
   fun _ _ => Except.ok none, fun _ _ => Except.ok (), fun _ _ _ => Except.ok none,
   fun _ _ _ => Except.ok false, fun _ _ _ => Except.ok [],
   fun _ _ => Except.ok (some dsEx)⟩

/-- Concrete file descriptor used in the pagination witness. -/
def fd1 : FileDesc := ⟨"id1", "sheet one", "application/vnd.google-apps.spreadsheet"⟩

/-- Second concrete file descriptor used in the pagination witness. -/
def fd2 : FileDesc := ⟨"id2", "sheet two", "application/vnd.google-apps.spreadsheet"⟩

/-!
Theorems settling the claims.
-/

/-- Claim C2: for every input line that does not begin with the marker
character and every session state, `process_chat` returns the fixed
help-prompt message and leaves the session dataset unchanged. -/
theorem C2_nonMarkerLine {σ δ : Type} (env : Env σ δ) (message : String)
    (history : List (String × String)) (df : Option Dataset)
    (ss : Option σ) (ds : Option δ)
    (h : startsWithSlash message = false) :
    processChat env message history df ss ds =
      Except.ok ("Type /help to see available commands",
        history ++ [(message, "Type /help to see available commands")], df) := by
  simp [processChat, h]

/-- Witness for C2 at the concrete free-text line "hello". -/
theorem C2_nonMarkerLine_witness :
    (startsWithSlash "hello" = false) ∧
    processChat envTrivial "hello" [] none none none =
      Except.ok ("Type /help to see available commands",
        [("hello", "Type /help to see available commands")], none) :=
  ⟨by decide, C2_nonMarkerLine envTrivial "hello" [] none none none (by decide)⟩

/-- Claim C5: for every session state, the help command returns the fixed
message; the command table has exactly 9 entries, and the lines of the
message starting with the marker are exactly one line "/<name> - <desc>"
per table entry, in order. -/
theorem C5_helpEnumeratesTable {σ δ : Type} (env : Env σ δ) (args : List String)
    (df : Option Dataset) (ss : Option σ) (ds : Option δ) :
    processCommand env "help" args df ss ds = (get_help_message, df) ∧
    COMMANDS.length = 9 ∧
    (splitLines get_help_message).filter (fun l => startsWithSlash l) =
      COMMANDS.map (fun p => "/" ++ p.1 ++ " - " ++ p.2) :=
  ⟨rfl, rfl, by decide⟩

/-- Claim C1 (code bug): on the line consisting of only the marker character
(or marker followed by whitespace), `process_chat` evaluates `parts[0]` on an
empty token list and raises an uncaught IndexError instead of returning a
renderable message. -/
theorem C1_markerOnlyLineRaises :
    processChat envTrivial "/" [] none none none =
      Except.error "IndexError: list index out of range" ∧
    processChat envTrivial "/ " [] none none none =
      Except.error "IndexError: list index out of range" :=
  ⟨rfl, rfl⟩

/-- Counterexample to claim C10 as stated: at the input message "/" no
(message, response) pair is appended to the transcript, because
`process_chat` raises before reaching the append. -/
theorem C10_counterexample :
    ¬ ∃ response new_df,
      processChat envTrivial "/" [] none none none =
        Except.ok (response, [("/", response)], new_df) := by
  rintro ⟨r, d, h⟩
  exact Except.noConfusion h

/-- Claim C10 as amended: for every input message that, when it starts with
the marker, still tokenises to a nonempty parts list, `process_chat` appends
exactly one (message, response) pair to the transcript, the appended
response being the returned message string. -/
theorem C10_appendsOnePair {σ δ : Type} (env : Env σ δ) (message : String)
    (history : List (String × String)) (df : Option Dataset)
    (ss : Option σ) (ds : Option δ)
    (h : startsWithSlash message = true → pySplit (strTail message) ≠ []) :
    ∃ response new_df,
      processChat env message history df ss ds =
        Except.ok (response, history ++ [(message, response)], new_df) := by
  by_cases hm : startsWithSlash message
  · rcases hp : pySplit (strTail message) with _ | ⟨first, rest⟩
    · exact absurd hp (h hm)
    · refine ⟨(processCommand env (pyLower first) rest df ss ds).1,
        (processCommand env (pyLower first) rest df ss ds).2, ?_⟩
      simp [processChat, hm, hp]
  · refine ⟨"Type /help to see available commands", df, ?_⟩
    simp [processChat, hm]

/-- Witness for the amended C10 at the concrete command line "/help". -/
theorem C10_appendsOnePair_witness :
    (startsWithSlash "/help" = true → pySplit (strTail "/help") ≠ []) ∧
    ∃ response new_df,
      processChat envTrivial "/help" [] none none none =
        Except.ok (response, [("/help", response)], new_df) :=
  ⟨by decide, C10_appendsOnePair envTrivial "/help" [] none none none (by decide)⟩

/-- Unfolding helper: when the dispatcher reaches the handler try-block,
`process_command` is the catch-wrapped handler body. -/
theorem processCommand_eq_catch {σ δ : Type} (env : Env σ δ) (command : String)
    (args : List String) (df : Option Dataset) (ss : Option σ) (ds : Option δ)
    (hreach : reachesHandler command df ss ds) :
    processCommand env command args df ss ds =
      match processCommandBody env command args df ss ds with
      | Except.ok r => r
      | Except.error e => ("Error processing command: " ++ e, df) := by
  obtain ⟨h1, h2, h3⟩ := hreach
  unfold processCommand
  rw [if_neg h1, if_neg h2, if_neg h3]

/-- Claim C3: for every command, argument list and session state, if the
invoked handler body raises, `process_command` catches the exception and
returns the message "Error processing command: <description>" together with
the dataset it was given, unchanged. -/
theorem C3_dispatcherCatchesHandlerExceptions {σ δ : Type} (env : Env σ δ)
    (command : String) (args : List String) (df : Option Dataset)
    (ss : Option σ) (ds : Option δ) (e : String)
    (hreach : reachesHandler command df ss ds)
    (hraise : processCommandBody env command args df ss ds = Except.error e) :
    processCommand env command args df ss ds =
      ("Error processing command: " ++ e, df) := by
  rw [processCommand_eq_catch env command args df ss ds hreach, hraise]

/-- Witness for C3: the statistics call raises "boom" on a describe with a
loaded dataset, and the dispatcher converts it into the error message. -/
theorem C3_dispatcherCatchesHandlerExceptions_witness :
    reachesHandler "describe" (some dsEx) (some ()) (some ()) ∧
    processCommandBody envBoom "describe" [] (some dsEx) (some ()) (some ()) =
      Except.error "boom" ∧
    processCommand envBoom "describe" [] (some dsEx) (some ()) (some ()) =
      ("Error processing command: boom", some dsEx) :=
  ⟨⟨by decide, by decide, by decide⟩, rfl,
   C3_dispatcherCatchesHandlerExceptions envBoom "describe" [] (some dsEx)
     (some ()) (some ()) "boom" ⟨by decide, by decide, by decide⟩ rfl⟩

/-- Claim C4: a known command whose required resources are missing returns
its precondition message verbatim, independently of every external call
(the environment is arbitrary and absent from the result), and the session
dataset stays as it was: describe/missing/info with no dataset return the
"No data loaded" message with the dataset still `none`; the five remote
commands with either service handle absent return the "Not authenticated"
message with the dataset unchanged. -/
theorem C4_preconditionGuards {σ δ : Type} (env : Env σ δ) (command : String)
    (args : List String) (df : Option Dataset) (ss : Option σ) (ds : Option δ) :
    ((command = "describe" ∨ command = "missing" ∨ command = "info") →
      processCommand env command args none ss ds =
        ("No data loaded. Please upload a CSV file first.", none)) ∧
    ((command = "create_sheet" ∨ command = "upload" ∨ command = "write" ∨
        command = "read" ∨ command = "list") →
      (ss.isNone || ds.isNone) = true →
      processCommand env command args df ss ds =
        ("Not authenticated with Google. Please authenticate first.", df)) := by
  constructor
  · rintro (rfl | rfl | rfl) <;> rfl
  · rintro (rfl | rfl | rfl | rfl | rfl) hauth
    all_goals
      cases ss with
      | none => rfl
      | some s =>
        cases ds with
        | none => rfl
        | some d0 => exact Bool.noConfusion hauth

/-- Witness for C4: describe with no dataset, and list with the sheets
handle absent. -/
theorem C4_preconditionGuards_witness :
    processCommand envTrivial "describe" [] none (some ()) (some ()) =
      ("No data loaded. Please upload a CSV file first.", none) ∧
    processCommand envTrivial "list" [] none none (some ()) =
      ("Not authenticated with Google. Please authenticate first.", none) :=
  ⟨(C4_preconditionGuards envTrivial "describe" [] none (some ()) (some ())).1
     (Or.inl rfl),
   (C4_preconditionGuards envTrivial "list" [] none none (some ())).2
     (Or.inr (Or.inr (Or.inr (Or.inr rfl)))) rfl⟩

/-- Claim C6: the read command, when the binding returns a table, replaces
the session dataset with the newly fetched table; the write and upload
commands return the session dataset unchanged in every case (success,
failure sentinel, missing argument, missing precondition, or a raised
exception anywhere in the handler body). -/
theorem C6_readReplacesWriteUploadPreserve {σ δ : Type} (env : Env σ δ)
    (args : List String) (df : Option Dataset) (ss : Option σ) (ds : Option δ) :
    (processCommand env "write" args df ss ds).2 = df ∧
    (processCommand env "upload" args df ss ds).2 = df ∧
    (∀ (a : String) (rest : List String) (nd : Dataset),
      args = a :: rest → ss.isNone = false → ds.isNone = false →
      env.read_sheet ss a = Except.ok (some nd) →
      processCommand env "read" args df ss ds =
        ("Data loaded from sheet successfully", some nd)) := by
  refine ⟨?_, ?_, ?_⟩
  · cases ss with
    | none => rfl
    | some s =>
      cases ds with
      | none => rfl
      | some d0 =>
        cases df with
        | none => rfl
        | some d =>
          cases args with
          | nil => rfl
          | cons a rest =>
            have hred : processCommand env "write" (a :: rest) (some d) (some s) (some d0) =
                match (env.write_to_sheet (some s) a (d.columns :: d.rows)).map
                    (fun success =>
                      if success then ("Data written to sheet successfully", some d)
                      else ("Failed to write data to sheet", some d)) with
                  | Except.ok r => r
                  | Except.error e => ("Error processing command: " ++ e, some d) := rfl
            rw [hred]
            rcases env.write_to_sheet (some s) a (d.columns :: d.rows) with e | b
            · rfl
            · cases b <;> rfl
  · cases ss with
    | none => rfl
    | some s =>
      cases ds with
      | none => rfl
      | some d0 =>
        cases df with
        | none => rfl
        | some d =>
          cases args with
          | nil => rfl
          | cons a rest =>
            have hred : processCommand env "upload" (a :: rest) (some d) (some s) (some d0) =
                match Except.bind (env.to_csv d ("temp_" ++ a ++ ".csv"))
                    (fun _ => Except.bind
                      (env.upload_to_drive (some d0) ("temp_" ++ a ++ ".csv") "text/csv")
                      (fun file_id =>
                        if pyTruthyStr file_id then
                          Except.ok ("File uploaded successfully with ID: " ++
                            file_id.getD "", some d)
                        else Except.ok ("Failed to upload file", some d))) with
                  | Except.ok r => r
                  | Except.error e => ("Error processing command: " ++ e, some d) := rfl
            rw [hred]
            rcases env.to_csv d ("temp_" ++ a ++ ".csv") with e | u
            · rfl
            · rcases env.upload_to_drive (some d0) ("temp_" ++ a ++ ".csv") "text/csv"
                with e2 | fid
              · rfl
              · simp only [Except.bind]
                cases pyTruthyStr fid <;> rfl
  · rintro a rest nd rfl hss hds hread
    cases ss with
    | none => exact Bool.noConfusion hss
    | some s =>
      cases ds with
      | none => exact Bool.noConfusion hds
      | some d0 =>
        have hred : processCommand env "read" (a :: rest) df (some s) (some d0) =
            match (env.read_sheet (some s) a).map
                (fun new_df =>
                  match new_df with
                  | some nd2 => ("Data loaded from sheet successfully", some nd2)
                  | none => ("Failed to read data from sheet", df)) with
              | Except.ok r => r
              | Except.error e => ("Error processing command: " ++ e, df) := rfl
        rw [hred, hread]
        rfl

/-- Witness for C6: write and upload on a loaded dataset keep the dataset;
read with a binding that returns `dsEx` installs `dsEx` as the dataset. -/
theorem C6_readReplacesWriteUploadPreserve_witness :
    (processCommand envRead "write" ["S"] (some dsEx) (some ()) (some ())).2 = some dsEx ∧
    (processCommand envRead "upload" ["f"] (some dsEx) (some ()) (some ())).2 = some dsEx ∧
    processCommand envRead "read" ["S"] none (some ()) (some ()) =
      ("Data loaded from sheet successfully", some dsEx) :=
  ⟨(C6_readReplacesWriteUploadPreserve envRead ["S"] (some dsEx) (some ()) (some ())).1,
   (C6_readReplacesWriteUploadPreserve envRead ["f"] (some dsEx) (some ()) (some ())).2.1,
   (C6_readReplacesWriteUploadPreserve envRead ["S"] none (some ()) (some ())).2.2
     "S" [] dsEx rfl rfl rfl rfl⟩

/-- Claim C7: against the store model in which a successful write stores the
given values and a read of the same identifier returns them, writing
[["a","b"],["1","2"]] to "SHEET1" with the default write range and then
reading "SHEET1" with the default read range yields the Dataset with columns
["a","b"] and the single data row ["1","2"]; the two defaults are the
distinct references "Sheet1!A1" and "Sheet1". -/
theorem C7_writeReadRoundTrip :
    writeDefaultRange = "Sheet1!A1" ∧ readDefaultRange = "Sheet1" ∧
    write_to_sheet storeWriteOracle "SHEET1" [["a", "b"], ["1", "2"]]
      writeDefaultRange = true ∧
    read_sheet
        (storeReadOracle
          (storeWrite (fun _ => none) "SHEET1" [["a", "b"], ["1", "2"]]))
        "SHEET1" readDefaultRange =
      some ⟨["a", "b"], [["1", "2"]]⟩ :=
  ⟨rfl, rfl, rfl, rfl⟩

/-- Claim C8: each of the five binding operations catches every exception
raised by an underlying service call and returns its designated failure
sentinel (None for create_spreadsheet, read_sheet and upload_to_drive —
upload with the exception at either of its two call sites — False for
write_to_sheet, the empty list for list_files); the binding return types
carry no exception, so none propagates past this layer. -/
theorem C8_bindingSentinels :
    (∀ (execCreate : String → Except String (Option String)) (title e : String),
      execCreate title = Except.error e →
      create_spreadsheet execCreate title = none) ∧
    (∀ (openFile : String → Except String Unit)
        (execCreate : FileMetadata → String → String → Except String (Option String))
        (file_path mime_type : String) (folder_id : Option String) (e : String),
      openFile file_path = Except.error e →
      upload_to_drive openFile execCreate file_path mime_type folder_id = none) ∧
    (∀ (openFile : String → Except String Unit)
        (execCreate : FileMetadata → String → String → Except String (Option String))
        (file_path mime_type : String) (folder_id : Option String) (e : String),
      openFile file_path = Except.ok () →
      execCreate
        ⟨(file_path.splitOn "/").getLastD "",
         if pyTruthyStr folder_id then some [folder_id.getD ""] else none⟩
        file_path mime_type = Except.error e →
      upload_to_drive openFile execCreate file_path mime_type folder_id = none) ∧
    (∀ (execUpdate : String → String → List (List String) → Except String Unit)
        (spreadsheet_id : String) (data : List (List String)) (range_name e : String),
      execUpdate spreadsheet_id range_name data = Except.error e →
      write_to_sheet execUpdate spreadsheet_id data range_name = false) ∧
    (∀ (execGet : String → String → Except String (List (List String)))
        (spreadsheet_id range_name e : String),
      execGet spreadsheet_id range_name = Except.error e →
      read_sheet execGet spreadsheet_id range_name = none) ∧
    (∀ (serve : String → List (Except String Page))
        (folder_id file_type : Option String) (e : String),
      list_files_go (serve (buildQuery folder_id file_type)) [] = Except.error e →
      list_files serve folder_id file_type = []) := by
  refine ⟨?_, ?_, ?_, ?_, ?_, ?_⟩
  · intro execCreate title e h
    simp [create_spreadsheet, h]
  · intro openFile execCreate file_path mime_type folder_id e h
    simp [upload_to_drive, h]
  · intro openFile execCreate file_path mime_type folder_id e hopen hexec
    simp only [upload_to_drive, hopen]
    rw [hexec]
  · intro execUpdate spreadsheet_id data range_name e h
    simp [write_to_sheet, h]
  · intro execGet spreadsheet_id range_name e h
    simp [read_sheet, h]
  · intro serve folder_id file_type e h
    simp [list_files, h]

/-- Witness for C8: every binding evaluated with a service oracle raising
"down" at the relevant call site returns its sentinel. -/
theorem C8_bindingSentinels_witness :
    create_spreadsheet (fun _ => Except.error "down") "title" = none ∧
    upload_to_drive (fun _ => Except.error "down") (fun _ _ _ => Except.ok (some "id"))
      "p" "text/csv" none = none ∧
    upload_to_drive (fun _ => Except.ok ()) (fun _ _ _ => Except.error "down")
      "p" "text/csv" none = none ∧
    write_to_sheet (fun _ _ _ => Except.error "down") "S" [["x"]] writeDefaultRange = false ∧
    read_sheet (fun _ _ => Except.error "down") "S" readDefaultRange = none ∧
    list_files (fun _ => [Except.error "down"]) none none = [] :=
  ⟨C8_bindingSentinels.1 _ "title" "down" rfl,
   C8_bindingSentinels.2.1 _ _ "p" "text/csv" none "down" rfl,
   C8_bindingSentinels.2.2.1 _ _ "p" "text/csv" none "down" rfl rfl,
   C8_bindingSentinels.2.2.2.1 _ "S" [["x"]] writeDefaultRange "down" rfl,
   C8_bindingSentinels.2.2.2.2.1 _ "S" readDefaultRange "down" rfl,
   C8_bindingSentinels.2.2.2.2.2 _ none none "down" rfl⟩

/-- Pagination loop invariant: over a run of token-carrying pages followed
by a tokenless page, the loop returns the accumulator extended with the
files of all pages up to and including the tokenless one, regardless of any
later responses. -/
theorem list_files_go_run (pre : List Page) (p : Page)
    (rest : List (Except String Page)) (acc : List FileDesc)
    (hpre : ∀ q, q ∈ pre → q.nextPageToken.isSome = true)
    (hp : p.nextPageToken = none) :
    list_files_go (pre.map Except.ok ++ Except.ok p :: rest) acc =
      Except.ok (acc ++ ((pre.map Page.files).flatten ++ p.files)) := by
  induction pre generalizing acc with
  | nil =>
    simp [list_files_go, hp]
  | cons q qs ih =>
    have hq : q.nextPageToken.isSome = true := hpre q (List.mem_cons_self q qs)
    obtain ⟨tok, htok⟩ := Option.isSome_iff_exists.mp hq
    have hrec := ih (acc ++ q.files) (fun r hr => hpre r (List.mem_cons_of_mem q hr))
    simp only [List.map_cons, List.cons_append, list_files_go, htok]
    simp only [List.append_eq]
    rw [hrec]
    simp [List.append_assoc]

/-- Claim C9: for every filter combination and finite paginated response
sequence, list_files requests the conjunction of the truthy filters as its
query, accumulates the files of every page in order following each
continuation token, and returns the concatenation of all pages exactly at
the first response carrying no continuation token; with both filters given
(nonempty), the issued query is the conjunction of the two clauses. -/
theorem C9_paginationAccumulatesAll (folder_id file_type : Option String)
    (serve : String → List (Except String Page))
    (pre : List Page) (p : Page) (rest : List (Except String Page))
    (hpre : ∀ q, q ∈ pre → q.nextPageToken.isSome = true)
    (hp : p.nextPageToken = none)
    (hserve : serve (buildQuery folder_id file_type) =
      pre.map Except.ok ++ Except.ok p :: rest) :
    list_files serve folder_id file_type = (pre.map Page.files).flatten ++ p.files ∧
    (∀ f t : String, f ≠ "" → t ≠ "" →
      buildQuery (some f) (some t) =
        "\x27" ++ f ++ "\x27 in parents" ++ " and " ++
          ("mimeType=\x27" ++ t ++ "\x27")) := by
  constructor
  · have hlf : list_files serve folder_id file_type =
        match list_files_go (serve (buildQuery folder_id file_type)) [] with
        | Except.ok results => results
        | Except.error _ => [] := rfl
    rw [hlf, hserve, list_files_go_run pre p rest [] hpre hp]
    rfl
  · intro f t hf ht
    have h1 : pyTruthyStr (some f) = true := by simp [pyTruthyStr, hf]
    have h2 : pyTruthyStr (some t) = true := by simp [pyTruthyStr, ht]
    have hq : buildQuery (some f) (some t) =
        String.intercalate " and "
          ((if pyTruthyStr (some f) then ["\x27" ++ f ++ "\x27 in parents"] else []) ++
           (if pyTruthyStr (some t) then ["mimeType=\x27" ++ t ++ "\x27"] else [])) := rfl
    rw [hq, if_pos h1, if_pos h2]
    rfl

/-- Witness for C9: folder filter "F1" and the spreadsheet mime type, two
pages linked by one continuation token, accumulated in order. -/
theorem C9_paginationAccumulatesAll_witness :
    (∀ q, q ∈ [Page.mk [fd1] (some "tok")] → q.nextPageToken.isSome = true) ∧
    (Page.mk [fd2] none).nextPageToken = none ∧
    list_files
      (fun _ => [Except.ok (Page.mk [fd1] (some "tok")), Except.ok (Page.mk [fd2] none)])
      (some "F1") (some "application/vnd.google-apps.spreadsheet") = [fd1, fd2] :=
  ⟨by decide, rfl,
   (C9_paginationAccumulatesAll (some "F1")
     (some "application/vnd.google-apps.spreadsheet")
     (fun _ => [Except.ok (Page.mk [fd1] (some "tok")), Except.ok (Page.mk [fd2] none)])
     [Page.mk [fd1] (some "tok")] (Page.mk [fd2] none) []
     (by decide) rfl rfl).1⟩
